import Mathlib

/-
Shallow embedding of the ydb-go-sdk driver fragments that the verified
claims are about:

  * internal/table/scanner/scanner.go  -- the result scanner (types,
    values, the scan stack, error stickiness, the scan loop);
  * coordiantion.go                    -- lazyCoordination.Close;
  * cluster/context.go                 -- WithEndpoint / ContextEndpoint;
  * credentials (unnamed/part_000)     -- multiCredentials.Token;
  * the retry engine Do loop, modelled from the spec because retry.go is
    not among the provided sources.

Go machine integers are embedded as Int / Nat with the explicit range
checks that the source performs; fallible operations return the updated
state together with Option results; the sticky scanner error is a field
of the scanner state, exactly as in the source.

The embedding restricts the Ydb.Type / Ydb.Value tagged unions and the
set of scan destinations to the fragment exercised by the claims
(primitive signed and unsigned integers, the Optional wrapper, the null
marker and the nested-value wrapper); every function below follows the
corresponding Go function case by case on that fragment.
-/

/- Identifiers of primitive wire types (Ydb.Type.TypeId fragment). -/
inductive TypeId where
  | bool
  | int8
  | uint8
  | int16
  | uint16
  | int32
  | uint32
  | int64
  | uint64
  deriving Repr, DecidableEq

/- Ydb.Type fragment: a primitive type id or the Optional wrapper. -/
inductive YType where
  | typeId (id : TypeId)
  | optionalType (item : YType)
  deriving Repr, DecidableEq

/- Ydb.Value fragment: the oneof payload of a wire cell.  The Go value
carries the oneof inside a *Ydb.Value wrapper struct; the embedding
flattens that wrapper.  Int32/Int64 payloads are Int, Uint32/Uint64
payloads are Nat. -/
inductive YValue where
  | boolValue (b : Bool)
  | int32Value (v : Int)
  | uint32Value (v : Nat)
  | int64Value (v : Int)
  | uint64Value (v : Nat)
  | textValue (s : String)
  | nullFlagValue
  | nestedValue (v : YValue)
  deriving Repr, DecidableEq

/- A column descriptor of a result set: name and wire type. -/
structure Column where
  name : String
  type : YType
  deriving Repr, DecidableEq

/- Ydb.ResultSet fragment: columns, rows (each row is the Items list of
its *Ydb.Value), and the Truncated flag. -/
structure ResultSet where
  columns : List Column
  rows : List (List YValue)
  truncated : Bool
  deriving Repr, DecidableEq

/- The distinguishable errors the scanner records via errorf; each
constructor corresponds to one errorf call site of the source. -/
inductive ScanError where
  | overflow (d : Int)
  | valueTypeMismatch
  | noValue
  | noColumn (name : String)
  | unknownType
  | notOptional
  | countMismatch
  | columnsLessThanValues
  deriving Repr, DecidableEq

/- A stack item: column name, wire type and wire value of the item under
scan (the unused index field of the source struct is omitted). -/
structure Item where
  name : String
  t : Option YType
  v : Option YValue
  deriving Repr, DecidableEq

def emptyItem : Item := { name := "", t := none, v := none }

/- item.isEmpty: the Go test x.v == nil. -/
def Item.isEmpty (x : Item) : Bool := x.v.isNone

/- scanStack: the traversal stack plus the scanItem fast path. -/
structure ScanStack where
  v : List Item
  p : Nat
  scanItem : Item
  deriving Repr, DecidableEq

def ScanStack.reset (s : ScanStack) : ScanStack :=
  { s with scanItem := emptyItem, p := 0 }

def ScanStack.current (s : ScanStack) : Item :=
  if !s.scanItem.isEmpty then s.scanItem
  else if s.v.isEmpty then emptyItem
  else s.v.getD s.p emptyItem

def ScanStack.currentValue (s : ScanStack) : Option YValue :=
  (s.current).v

def ScanStack.currentType (s : ScanStack) : Option YType :=
  (s.current).t

/- isOptional of the source, with the nil-pointer guard folded into
Option. -/
def isOptionalType : Option YType → Bool
  | some (.optionalType _) => true
  | _ => false

/- The scan destinations the embedding models, each one a Go destination
shape dispatched on by scanRequired / scanOptional / setDefaultValue:
single pointers to the narrow and direct integer types, and the
pointer-to-pointer form for Optional columns.  Each constructor stores
the value currently held behind the pointer. -/
inductive Dest where
  | pInt8 (cur : Int)
  | pInt16 (cur : Int)
  | pInt32 (cur : Int)
  | pUint8 (cur : Nat)
  | pUint16 (cur : Nat)
  | pUint32 (cur : Nat)
  | ppUint32 (cur : Option Nat)
  deriving Repr, DecidableEq

/- Whether the destination is a single pointer to a primitive integer. -/
def Dest.isSinglePointerPrimitive : Dest → Bool
  | .pInt8 _ => true
  | .pInt16 _ => true
  | .pInt32 _ => true
  | .pUint8 _ => true
  | .pUint16 _ => true
  | .pUint32 _ => true
  | .ppUint32 _ => false

/- Whether reflect sees the destination as pointer-to-pointer (the test
of the scanOptional default branch). -/
def Dest.isDoublePointer : Dest → Bool
  | .ppUint32 _ => true
  | _ => false

/- The scanner state (struct scanner of the source; the rawConverter
field is omitted because no modelled path touches it). -/
structure Scanner where
  set : Option ResultSet
  row : Option (List YValue)
  stack : ScanStack
  nextRow : Nat
  nextItem : Nat
  columnIndexes : Option (List Nat)
  defaultValueForOptional : Bool
  err : Option ScanError
  deriving Repr, DecidableEq

/- errorf: record an error only when none is recorded yet (stickiness). -/
def Scanner.errorf (s : Scanner) (e : ScanError) : Scanner :=
  if s.err.isSome then s else { s with err := some e }

def Scanner.valueTypeError (s : Scanner) : Scanner := s.errorf .valueTypeMismatch

def Scanner.noValueError (s : Scanner) : Scanner := s.errorf .noValue

def Scanner.overflowError (s : Scanner) (d : Int) : Scanner := s.errorf (.overflow d)

/- ColumnCount. -/
def Scanner.ColumnCount (s : Scanner) : Nat :=
  match s.set with
  | none => 0
  | some st => st.columns.length

/- RowCount. -/
def Scanner.RowCount (s : Scanner) : Nat :=
  match s.set with
  | none => 0
  | some st => st.rows.length

/- HasNextRow: s.err == nil && s.set != nil && s.nextRow < len(s.set.Rows). -/
def Scanner.HasNextRow (s : Scanner) : Bool :=
  s.err.isNone &&
    (match s.set with
     | none => false
     | some st => s.nextRow < st.rows.length)

/- NextRow: advance to the next row; returns the new state and the Go
boolean result. -/
def Scanner.NextRow (s : Scanner) : Scanner × Bool :=
  if s.HasNextRow then
    match s.set with
    | some st =>
        ({ s with
            row := some (st.rows.getD s.nextRow []),
            nextRow := s.nextRow + 1,
            nextItem := 0,
            stack := s.stack.reset }, true)
    | none => (s, false)
  else (s, false)

/- Err. -/
def Scanner.Err (s : Scanner) : Option ScanError := s.err

/- hasItems. -/
def Scanner.hasItems (s : Scanner) : Bool :=
  s.err.isNone && s.set.isSome && s.row.isSome

def Scanner.setScanItem (s : Scanner) (it : Item) : Scanner :=
  { s with stack := { s.stack with scanItem := it } }

def Scanner.setScanItemValue (s : Scanner) (v : Option YValue) : Scanner :=
  { s with stack := { s.stack with scanItem := { s.stack.scanItem with v := v } } }

def Scanner.setScanItemType (s : Scanner) (t : Option YType) : Scanner :=
  { s with stack := { s.stack with scanItem := { s.stack.scanItem with t := t } } }

/- seekItemByID: position scanItem at column id of the current row.  On
well-formed sets (rows as long as columns) the row lookup yields a value
for every valid id. -/
def Scanner.seekItemByID (s : Scanner) (id : Nat) : Scanner :=
  if !s.hasItems || decide (id ≥ s.ColumnCount) then s.noValueError
  else
    match s.set, s.row with
    | some st, some row =>
        match st.columns.get? id with
        | some col => s.setScanItem { name := col.name, t := some col.type, v := row.get? id }
        | none => s.noValueError
    | _, _ => s.noValueError

/- isCurrentTypeOptional. -/
def Scanner.isCurrentTypeOptional (s : Scanner) : Bool :=
  isOptionalType (s.stack.current).t

/- isNull: the current value is the null marker. -/
def Scanner.isNull (s : Scanner) : Bool :=
  match s.stack.currentValue with
  | some .nullFlagValue => true
  | _ => false

/- unwrapValue: the current value must be a NestedValue wrapper. -/
def Scanner.unwrapValue (s : Scanner) : Scanner × Option YValue :=
  match s.stack.currentValue with
  | some (.nestedValue v) => (s, some v)
  | _ => (s.valueTypeError, none)

/- unwrap: interpret the current item as Optional<T>; the value is
unwrapped only when the inner type is itself optional. -/
def Scanner.unwrap (s : Scanner) : Scanner :=
  if s.err.isSome then s
  else
    match s.stack.currentType with
    | some (.optionalType inner) =>
        let s1 :=
          if isOptionalType (some inner) then
            let (s2, v) := s.unwrapValue
            s2.setScanItemValue v
          else s
        s1.setScanItemType (some inner)
    | _ => s

/- int32: read the current value as an Int32Value; on mismatch record a
value-type error and return the zero named return. -/
def Scanner.int32 (s : Scanner) : Scanner × Int :=
  match s.stack.currentValue with
  | some (.int32Value v) => (s, v)
  | _ => (s.valueTypeError, 0)

/- uint32. -/
def Scanner.uint32 (s : Scanner) : Scanner × Nat :=
  match s.stack.currentValue with
  | some (.uint32Value v) => (s, v)
  | _ => (s.valueTypeError, 0)

/- int8: narrow from the wire Int32 with the MinInt8/MaxInt8 range
check; on overflow record the error and return the zero named return. -/
def Scanner.int8 (s : Scanner) : Scanner × Int :=
  let (s1, d) := s.int32
  if d < -128 ∨ 127 < d then (s1.overflowError d, 0) else (s1, d)

/- int16. -/
def Scanner.int16 (s : Scanner) : Scanner × Int :=
  let (s1, d) := s.int32
  if d < -32768 ∨ 32767 < d then (s1.overflowError d, 0) else (s1, d)

/- uint8: narrow from the wire Uint32 with the MaxUint8 check. -/
def Scanner.uint8 (s : Scanner) : Scanner × Nat :=
  let (s1, d) := s.uint32
  if 255 < d then (s1.overflowError (Int.ofNat d), 0) else (s1, d)

/- uint16. -/
def Scanner.uint16 (s : Scanner) : Scanner × Nat :=
  let (s1, d) := s.uint32
  if 65535 < d then (s1.overflowError (Int.ofNat d), 0) else (s1, d)

/- trySetByteArray: none of the modelled destinations is a byte array,
and the pointer-to-pointer destination only reaches this helper with
optional=false (scanRequired and setDefaultValue), where the source
returns false before any mutation; so on the modelled fragment the
helper always reports failure and leaves state and destination alone. -/
def Scanner.trySetByteArray (s : Scanner) (d : Dest) (_optional _def : Bool) :
    Scanner × Dest × Bool :=
  (s, d, false)

/- scanRequired: dispatch on the destination shape; unmatched shapes
fall to the trySetByteArray default and record an unknown-type error. -/
def Scanner.scanRequired (s : Scanner) (d : Dest) : Scanner × Dest :=
  match d with
  | .pInt8 _ => let (s1, v) := s.int8; (s1, .pInt8 v)
  | .pInt16 _ => let (s1, v) := s.int16; (s1, .pInt16 v)
  | .pInt32 _ => let (s1, v) := s.int32; (s1, .pInt32 v)
  | .pUint8 _ => let (s1, v) := s.uint8; (s1, .pUint8 v)
  | .pUint16 _ => let (s1, v) := s.uint16; (s1, .pUint16 v)
  | .pUint32 _ => let (s1, v) := s.uint32; (s1, .pUint32 v)
  | .ppUint32 _ =>
      let (s1, d1, ok) := s.trySetByteArray d false false
      if ok then (s1, d1) else (s1.errorf .unknownType, d1)

/- setDefaultValue: write the zero value of the destination type;
unmatched shapes fall to the trySetByteArray default. -/
def Scanner.setDefaultValue (s : Scanner) (d : Dest) : Scanner × Dest :=
  match d with
  | .pInt8 _ => (s, .pInt8 0)
  | .pInt16 _ => (s, .pInt16 0)
  | .pInt32 _ => (s, .pInt32 0)
  | .pUint8 _ => (s, .pUint8 0)
  | .pUint16 _ => (s, .pUint16 0)
  | .pUint32 _ => (s, .pUint32 0)
  | .ppUint32 _ =>
      let (s1, d1, ok) := s.trySetByteArray d false true
      if ok then (s1, d1) else (s1.errorf .unknownType, d1)

/- scanOptional: with defaults, null cells take the zero value and
non-null cells are unwrapped and scanned as required; without defaults,
pointer-to-pointer destinations become nil on null or point at the
decoded value, and every other modelled destination falls to the default
branch, which unwraps and then records either an unknown-type error (for
double pointers) or a not-optional error. -/
def Scanner.scanOptional (s : Scanner) (d : Dest) : Scanner × Dest :=
  if s.defaultValueForOptional then
    if s.isNull then s.setDefaultValue d
    else (s.unwrap).scanRequired d
  else
    match d with
    | .ppUint32 _ =>
        if s.isNull then (s, .ppUint32 none)
        else
          let (s1, v) := s.uint32
          (s1, .ppUint32 (some v))
    | _ =>
        let s1 := s.unwrap
        let (s2, d2, ok) := s1.trySetByteArray d true false
        if ok then (s2, d2)
        else if d.isDoublePointer then (s2.errorf .unknownType, d2)
        else (s2.errorf .notOptional, d2)

/- The outcome of a scan call: either the Go panic or the updated
scanner together with the updated destinations (the Go error result of
scan is the err field of the returned scanner). -/
inductive ScanOutcome where
  | panicked (msg : String)
  | normal (s : Scanner) (dests : List Dest)
  deriving Repr, DecidableEq

/- The body of the scan loop: seek each destination's item, stop as soon
as an error is observed right after the seek (leaving the remaining
destinations untouched), otherwise dispatch on optionality.  The Bool
reports whether the loop returned early. -/
def Scanner.scanLoop (s : Scanner) (values : List Dest) (i : Nat) :
    Scanner × List Dest × Bool :=
  match values with
  | [] => (s, [], false)
  | d :: rest =>
      let s1 :=
        match s.columnIndexes with
        | none => s.seekItemByID i
        | some idxs => s.seekItemByID (idxs.getD i 0)
      if s1.err.isSome then (s1, d :: rest, true)
      else
        let (s2, d2) :=
          if s1.isCurrentTypeOptional then s1.scanOptional d else s1.scanRequired d
        let (s3, rest3, early) := s2.scanLoop rest (i + 1)
        (s3, d2 :: rest3, early)

/- scan: the sticky-error short circuit, the column-count checks, the
double-scan panic, the loop, and the nextItem bump on normal completion. -/
def Scanner.scan (s : Scanner) (values : List Dest) : ScanOutcome :=
  if s.err.isSome then .normal s values
  else
    let countsOk : Bool :=
      match s.columnIndexes with
      | some idxs => idxs.length == values.length
      | none => true
    if ¬ countsOk then .normal (s.errorf .countMismatch) values
    else if s.ColumnCount < values.length then
      .normal (s.errorf .columnsLessThanValues) values
    else if s.nextItem ≠ 0 then .panicked "scan row failed: double scan per row"
    else
      match s.scanLoop values 0 with
      | (s1, values1, true) => .normal s1 values1
      | (s1, values1, false) =>
          .normal { s1 with nextItem := s1.nextItem + values.length } values1

/- Scan: clear the defaults flag and run scan. -/
def Scanner.Scan (s : Scanner) (values : List Dest) : ScanOutcome :=
  Scanner.scan { s with defaultValueForOptional := false } values

/- ScanWithDefaults: set the defaults flag and run scan. -/
def Scanner.ScanWithDefaults (s : Scanner) (values : List Dest) : ScanOutcome :=
  Scanner.scan { s with defaultValueForOptional := true } values

/- reset with no column names: the fresh scanner over a result set, as
the source's reset leaves it before the first NextRow. -/
def newScanner (st : ResultSet) : Scanner :=
  { set := some st
    row := none
    stack := { v := [], p := 0, scanItem := emptyItem }
    nextRow := 0
    nextItem := 0
    columnIndexes := none
    defaultValueForOptional := true
    err := none }

/-
Retry engine.  The implementation of the Do loop and of the error
classifier is not among the provided sources (only retry_test.go is), so
both are modelled from the spec.
-/

/- Modelled from the spec: the error categories of the classifier table
(spec 4.A); the Do implementation and the classifier source are not in
src/.  Transport codes first, then operation status codes. -/
inductive ErrCategory where
  | transportCanceled
  | transportUnknown
  | transportInternal
  | transportUnavailable
  | transportResourceExhausted
  | transportOutOfRange
  | transportInvalidArgument
  | transportNotFound
  | transportAlreadyExists
  | transportPermissionDenied
  | transportFailedPrecondition
  | transportUnimplemented
  | transportDataLoss
  | transportUnauthenticated
  | transportDeadlineExceeded
  | transportAborted
  | opBadSession
  | opSessionExpired
  | opOverloaded
  | opAborted
  | opUndetermined
  | opUnavailable
  | opBadRequest
  | opUnauthorized
  | opSchemeError
  | opGenericError
  | opTimeout
  | opPreconditionFailed
  | opAlreadyExists
  | opNotFound
  | opCancelled
  | opUnsupported
  | opSessionBusy
  deriving Repr, DecidableEq

/- Modelled from the spec: the retry column of the classifier table
(spec 4.A). -/
def retriable : ErrCategory → Bool
  | .transportCanceled => true
  | .transportUnknown => true
  | .transportInternal => true
  | .transportUnavailable => true
  | .transportResourceExhausted => true
  | .transportOutOfRange => false
  | .transportInvalidArgument => false
  | .transportNotFound => false
  | .transportAlreadyExists => false
  | .transportPermissionDenied => false
  | .transportFailedPrecondition => false
  | .transportUnimplemented => false
  | .transportDataLoss => false
  | .transportUnauthenticated => false
  | .transportDeadlineExceeded => false
  | .transportAborted => false
  | .opBadSession => true
  | .opSessionExpired => true
  | .opOverloaded => true
  | .opAborted => true
  | .opUndetermined => true
  | .opUnavailable => true
  | .opBadRequest => false
  | .opUnauthorized => false
  | .opSchemeError => false
  | .opGenericError => false
  | .opTimeout => false
  | .opPreconditionFailed => false
  | .opAlreadyExists => false
  | .opNotFound => false
  | .opCancelled => false
  | .opUnsupported => false
  | .opSessionBusy => true

/- Modelled from the spec: the categories whose operation completion is
undefined (spec 4.A): the retry engine must not retry a non-idempotent
closure on them. -/
def completionUndefined : ErrCategory → Bool
  | .transportInternal => true
  | .transportCanceled => true
  | .transportUnavailable => true
  | _ => false

/- The observable outcome of a Do call. -/
inductive DoResult where
  | ok
  | failed (c : ErrCategory)
  | ctxDone
  deriving Repr, DecidableEq

/- Modelled from the spec: the Do loop of the retry engine (spec 4.J);
retry.go is not in src/.  The context deadline is modelled as fuel (the
loop itself has no attempt cap); op is given the zero-based attempt
number and returns none on success; the result carries the number of op
invocations and the number of backoff waits performed. -/
def doLoop (op : Nat → Option ErrCategory) (idempotent : Bool) :
    Nat → Nat → Nat → DoResult × Nat × Nat
  | 0, calls, boffs => (.ctxDone, calls, boffs)
  | fuel + 1, calls, boffs =>
      match op calls with
      | none => (.ok, calls + 1, boffs)
      | some c =>
          if ¬ retriable c ∨ (¬ idempotent ∧ completionUndefined c) then
            (.failed c, calls + 1, boffs)
          else doLoop op idempotent fuel (calls + 1) (boffs + 1)

/- Modelled from the spec: Do(ctx, idempotent, op) entry point. -/
def Do (fuel : Nat) (idempotent : Bool) (op : Nat → Option ErrCategory) :
    DoResult × Nat × Nat :=
  doLoop op idempotent fuel 0 0

/-
coordiantion.go: lazyCoordination.Close.  The underlying internal
coordination client is abstracted as the result its Close would return;
the Bool of the result reports whether the underlying client was
invoked.
-/

structure CoordErr where
  msg : String
  deriving Repr, DecidableEq

structure CoordClient where
  closeResult : Option CoordErr
  deriving Repr, DecidableEq

structure LazyCoordination where
  client : Option CoordClient
  deriving Repr, DecidableEq

/- Close: nil client returns nil without touching the underlying
client; otherwise the client is cleared (deferred assignment) and the
underlying Close result is returned. -/
def LazyCoordination.close (c : LazyCoordination) :
    LazyCoordination × Option CoordErr × Bool :=
  match c.client with
  | none => (c, none, false)
  | some cl => ({ client := none }, cl.closeResult, true)

/-
cluster/context.go: WithEndpoint / ContextEndpoint over a model of Go
contexts as chains of WithValue frames; Value returns the most recently
attached value for a key.
-/

structure Endpoint where
  address : String
  deriving Repr, DecidableEq

inductive CtxKey where
  | endpointKey
  | otherKey (n : Nat)
  deriving Repr, DecidableEq

inductive CtxVal where
  | endpointVal (e : Endpoint)
  | otherVal (n : Nat)
  deriving Repr, DecidableEq

inductive Ctx where
  | background
  | withValue (parent : Ctx) (k : CtxKey) (v : CtxVal)
  deriving Repr, DecidableEq

def Ctx.value : Ctx → CtxKey → Option CtxVal
  | .background, _ => none
  | .withValue p k v, key => if k = key then some v else p.value key

/- WithEndpoint: context.WithValue(ctx, ctxEndpointKey{}, endpoint). -/
def WithEndpoint (ctx : Ctx) (e : Endpoint) : Ctx :=
  ctx.withValue .endpointKey (.endpointVal e)

/- ContextEndpoint: the type assertion on ctx.Value(ctxEndpointKey{}). -/
def ContextEndpoint (ctx : Ctx) : Option Endpoint × Bool :=
  match ctx.value .endpointKey with
  | some (.endpointVal e) => (some e, true)
  | _ => (none, false)

/- Whether some frame of the context attaches a value under the
endpoint key ("an endpoint was attached"). -/
def Ctx.hasEndpointKey : Ctx → Bool
  | .background => false
  | .withValue p k _ => k = CtxKey.endpointKey || p.hasEndpointKey

/-
credentials (src/unnamed/part_000): multiCredentials.Token.  A provider
is embedded as the (token, error) pair its Token call returns; the
composite's provider list carries those pairs in order.  The Nat of the
result counts how many providers were consulted.
-/

inductive CredError where
  | noCredentials
  | providerError (n : Nat)
  deriving Repr, DecidableEq

/- The Go loop of multiCredentials.Token with its named returns (token,
err) threaded as accumulators: each provider is consulted in order; the
first success returns; after the loop a nil error (possible only for
the empty list) becomes ErrCredentialsNoCredentials. -/
def multiTokenLoop :
    List (String × Option CredError) → String → Option CredError → Nat →
    (String × Option CredError) × Nat
  | [], tok, err, n =>
      ((tok, match err with
             | none => some .noCredentials
             | some e => some e), n)
  | (t, e) :: rest, _, _, n =>
      match e with
      | none => ((t, none), n + 1)
      | some e0 => multiTokenLoop rest t (some e0) (n + 1)

/- multiCredentials.Token entry point. -/
def multiCredentialsToken (cs : List (String × Option CredError)) :
    (String × Option CredError) × Nat :=
  multiTokenLoop cs "" none 0

/-
Concrete fixtures and runners used by the claim theorems.
-/

/- Fixture of the scan round-trip scenario: one column of type
Optional<Uint32> with rows [5, NULL, 7]. -/
def optUint32Set : ResultSet :=
  { columns := [{ name := "value", type := .optionalType (.typeId .uint32) }]
    rows := [[.uint32Value 5], [.nullFlagValue], [.uint32Value 7]]
    truncated := false }

/- Runner: NextRow followed by a one-destination Scan (or
ScanWithDefaults) on each of n rows, collecting the destinations as
written and the final sticky error. -/
def runRows (useDefaults : Bool) (d : Dest) : Scanner → Nat → List Dest × Option ScanError
  | s, 0 => ([], s.err)
  | s, n + 1 =>
      let (s1, ok) := s.NextRow
      if ok then
        match (if useDefaults then s1.ScanWithDefaults [d] else s1.Scan [d]) with
        | .normal s2 ds =>
            let (restDs, e) := runRows useDefaults d s2 n
            (ds ++ restDs, e)
        | .panicked _ => ([], none)
      else ([], s1.err)

/- Runner: build a single-column result set holding one cell, advance to
the row and scan one destination; returns the destination as written and
the resulting sticky error. -/
def scanOneCell (colType : YType) (cell : YValue) (useDefaults : Bool) (d : Dest) :
    Dest × Option ScanError :=
  let s0 := newScanner { columns := [{ name := "c", type := colType }]
                         rows := [[cell]], truncated := false }
  let (s1, _) := s0.NextRow
  match (if useDefaults then s1.ScanWithDefaults [d] else s1.Scan [d]) with
  | .normal s2 ds => (ds.getD 0 d, s2.err)
  | .panicked _ => (d, none)

/- A scanner with a recorded error, used as the sticky-error witness. -/
def stuckScanner : Scanner :=
  { set := none
    row := none
    stack := { v := [], p := 0, scanItem := emptyItem }
    nextRow := 0
    nextItem := 0
    columnIndexes := none
    defaultValueForOptional := true
    err := some .noValue }

/-- C1: scanner errors are sticky.  Once an error is recorded, NextRow
returns false without changing state, Scan and ScanWithDefaults return
immediately leaving every destination untouched (only the mode flag of
the entry point is written), a second errorf leaves the stored error
unchanged, and Err returns the first recorded error. -/
theorem c1_scanner_errors_sticky (s : Scanner) (e : ScanError)
    (h : s.err = some e) (values : List Dest) (e2 : ScanError) :
    s.NextRow = (s, false) ∧
    s.Scan values = .normal { s with defaultValueForOptional := false } values ∧
    s.ScanWithDefaults values = .normal { s with defaultValueForOptional := true } values ∧
    s.errorf e2 = s ∧
    s.Err = some e := by
  refine ⟨?_, ?_, ?_, ?_, h⟩
  · simp [Scanner.NextRow, Scanner.HasNextRow, h]
  · simp [Scanner.Scan, Scanner.scan, h]
  · simp [Scanner.ScanWithDefaults, Scanner.scan, h]
  · simp [Scanner.errorf, h]

/-- Witness for c1_scanner_errors_sticky at a concrete broken scanner. -/
theorem c1_scanner_errors_sticky_witness :
    stuckScanner.err = some ScanError.noValue ∧
    (stuckScanner.NextRow = (stuckScanner, false) ∧
     stuckScanner.Scan [] = .normal { stuckScanner with defaultValueForOptional := false } [] ∧
     stuckScanner.ScanWithDefaults [] =
       .normal { stuckScanner with defaultValueForOptional := true } [] ∧
     stuckScanner.errorf .unknownType = stuckScanner ∧
     stuckScanner.Err = some ScanError.noValue) :=
  ⟨rfl, c1_scanner_errors_sticky stuckScanner .noValue rfl [] .unknownType⟩

/-- C2: over a result set with one column Optional<Uint32> and rows
[5, NULL, 7], Scan into a pointer-to-pointer destination yields
pointing-at-5, nil, pointing-at-7 with no error, and ScanWithDefaults
into a plain uint32 destination yields 5, 0, 7 with no error. -/
theorem c2_optional_uint32_roundtrip :
    runRows false (.ppUint32 none) (newScanner optUint32Set) 3 =
      ([.ppUint32 (some 5), .ppUint32 none, .ppUint32 (some 7)], none) ∧
    runRows true (.pUint32 0) (newScanner optUint32Set) 3 =
      ([.pUint32 5, .pUint32 0, .pUint32 7], none) := by
  constructor <;> rfl

/-- C3 counterexample: scanning wire Int32 value 200 into an int8
destination holding 42 records the overflow error but does not leave the
destination unchanged: it overwrites it with the zero named return. -/
theorem c3_overflow_dest_overwritten_counterexample :
    scanOneCell (.typeId .int32) (.int32Value 200) false (.pInt8 42) =
      (.pInt8 0, some (.overflow 200)) ∧
    Dest.pInt8 0 ≠ Dest.pInt8 42 := by
  refine ⟨rfl, by decide⟩

/-- C3 amended: for every prior destination content, scanning wire Int32
value 200 into an int8 destination records the overflow error
retrievable via Err and writes 0 (the zero value of int8, the named
return of the overflowing decoder) into the destination. -/
theorem c3_overflow_error_and_zero (x0 : Int) :
    scanOneCell (.typeId .int32) (.int32Value 200) false (.pInt8 x0) =
      (.pInt8 0, some (.overflow 200)) := by
  rfl

/-- C4: narrowing decodes check ranges.  For every wire Int32 value d,
scanning into an int8 (resp. int16) destination yields exactly d with no
error when d is in the destination range and records the overflow error
otherwise; likewise for every wire Uint32 value into uint8 or uint16. -/
theorem c4_narrowing_range_checks (d : Int) (u : Nat) :
    (scanOneCell (.typeId .int32) (.int32Value d) false (.pInt8 0) =
      if d < -128 ∨ 127 < d then (.pInt8 0, some (.overflow d)) else (.pInt8 d, none)) ∧
    (scanOneCell (.typeId .int32) (.int32Value d) false (.pInt16 0) =
      if d < -32768 ∨ 32767 < d then (.pInt16 0, some (.overflow d)) else (.pInt16 d, none)) ∧
    (scanOneCell (.typeId .uint32) (.uint32Value u) false (.pUint8 0) =
      if 255 < u then (.pUint8 0, some (.overflow (Int.ofNat u))) else (.pUint8 u, none)) ∧
    (scanOneCell (.typeId .uint32) (.uint32Value u) false (.pUint16 0) =
      if 65535 < u then (.pUint16 0, some (.overflow (Int.ofNat u))) else (.pUint16 u, none)) := by
  refine ⟨?_, ?_, ?_, ?_⟩
  · by_cases h : d < -128 ∨ 127 < d <;>
      simp [scanOneCell, newScanner, Scanner.NextRow, Scanner.HasNextRow,
        Scanner.Scan, Scanner.scan, Scanner.scanLoop, Scanner.seekItemByID,
        Scanner.hasItems, Scanner.ColumnCount, Scanner.setScanItem,
        Scanner.isCurrentTypeOptional, Scanner.scanRequired,
        Scanner.int8, Scanner.int32, Scanner.overflowError, Scanner.errorf,
        ScanStack.current, ScanStack.currentValue, ScanStack.reset,
        Item.isEmpty, isOptionalType, emptyItem, h]
  · by_cases h : d < -32768 ∨ 32767 < d <;>
      simp [scanOneCell, newScanner, Scanner.NextRow, Scanner.HasNextRow,
        Scanner.Scan, Scanner.scan, Scanner.scanLoop, Scanner.seekItemByID,
        Scanner.hasItems, Scanner.ColumnCount, Scanner.setScanItem,
        Scanner.isCurrentTypeOptional, Scanner.scanRequired,
        Scanner.int16, Scanner.int32, Scanner.overflowError, Scanner.errorf,
        ScanStack.current, ScanStack.currentValue, ScanStack.reset,
        Item.isEmpty, isOptionalType, emptyItem, h]
  · by_cases h : 255 < u <;>
      simp [scanOneCell, newScanner, Scanner.NextRow, Scanner.HasNextRow,
        Scanner.Scan, Scanner.scan, Scanner.scanLoop, Scanner.seekItemByID,
        Scanner.hasItems, Scanner.ColumnCount, Scanner.setScanItem,
        Scanner.isCurrentTypeOptional, Scanner.scanRequired,
        Scanner.uint8, Scanner.uint32, Scanner.overflowError, Scanner.errorf,
        ScanStack.current, ScanStack.currentValue, ScanStack.reset,
        Item.isEmpty, isOptionalType, emptyItem, h]
  · by_cases h : 65535 < u <;>
      simp [scanOneCell, newScanner, Scanner.NextRow, Scanner.HasNextRow,
        Scanner.Scan, Scanner.scan, Scanner.scanLoop, Scanner.seekItemByID,
        Scanner.hasItems, Scanner.ColumnCount, Scanner.setScanItem,
        Scanner.isCurrentTypeOptional, Scanner.scanRequired,
        Scanner.uint16, Scanner.uint32, Scanner.overflowError, Scanner.errorf,
        ScanStack.current, ScanStack.currentValue, ScanStack.reset,
        Item.isEmpty, isOptionalType, emptyItem, h]

/-- C5: in Scan mode on an Optional column, a destination that is a
single pointer to a primitive makes the scanner record the
not-optional error and leaves the destination untouched, whatever the
cell holds; a pointer-to-pointer destination is set to nil when the
cell is null, with no error. -/
theorem c5_optional_requires_double_pointer (d : Dest) (v : YValue)
    (h : d.isSinglePointerPrimitive = true) :
    (scanOneCell (.optionalType (.typeId .uint32)) v false d = (d, some .notOptional)) ∧
    (scanOneCell (.optionalType (.typeId .uint32)) YValue.nullFlagValue false
        (.ppUint32 (some 9)) = (.ppUint32 none, none)) := by
  refine ⟨?_, rfl⟩
  cases d with
  | pInt8 c => rfl
  | pInt16 c => rfl
  | pInt32 c => rfl
  | pUint8 c => rfl
  | pUint16 c => rfl
  | pUint32 c => rfl
  | ppUint32 c => exact absurd h (by simp [Dest.isSinglePointerPrimitive])

/-- Witness for c5_optional_requires_double_pointer at a concrete
single-pointer destination and cell. -/
theorem c5_optional_requires_double_pointer_witness :
    Dest.isSinglePointerPrimitive (.pUint32 3) = true ∧
    ((scanOneCell (.optionalType (.typeId .uint32)) (.uint32Value 5) false (.pUint32 3) =
        (.pUint32 3, some .notOptional)) ∧
     (scanOneCell (.optionalType (.typeId .uint32)) YValue.nullFlagValue false
        (.ppUint32 (some 9)) = (.ppUint32 none, none))) :=
  ⟨rfl, c5_optional_requires_double_pointer (.pUint32 3) (.uint32Value 5) rfl⟩

/-- C9: a second Scan or ScanWithDefaults on the same row (no error
recorded, at least one value already consumed, and the column-count
checks passing as they did on the first call) panics with the
double-scan message instead of recording or returning an error. -/
theorem c9_double_scan_panics (s : Scanner) (values : List Dest)
    (h1 : s.err = none) (h2 : s.nextItem ≠ 0)
    (h3 : match s.columnIndexes with
          | some idxs => idxs.length = values.length
          | none => True)
    (h4 : ¬ s.ColumnCount < values.length) :
    s.Scan values = .panicked "scan row failed: double scan per row" ∧
    s.ScanWithDefaults values = .panicked "scan row failed: double scan per row" := by
  have main : ∀ b : Bool,
      Scanner.scan { s with defaultValueForOptional := b } values =
        .panicked "scan row failed: double scan per row" := by
    intro b
    unfold Scanner.scan
    cases hc : s.columnIndexes with
    | none => simp [h1, hc, Scanner.ColumnCount] at h4 ⊢ <;> simp_all [Scanner.ColumnCount]
    | some idxs =>
        rw [hc] at h3
        simp [h1, hc, h3, Scanner.ColumnCount] at h4 ⊢ <;> simp_all [Scanner.ColumnCount]
  exact ⟨main false, main true⟩

/- A scanner positioned on a row that has already been scanned once:
one Optional<Uint32> column, one consumed item. -/
def doubleScanScanner : Scanner :=
  { set := some { columns := [{ name := "c", type := .optionalType (.typeId .uint32) }]
                  rows := [[.uint32Value 5]], truncated := false }
    row := some [.uint32Value 5]
    stack := { v := [], p := 0, scanItem := emptyItem }
    nextRow := 1
    nextItem := 1
    columnIndexes := none
    defaultValueForOptional := false
    err := none }

/-- Witness for c9_double_scan_panics at a concrete scanner whose row
was already scanned. -/
theorem c9_double_scan_panics_witness :
    doubleScanScanner.err = none ∧ doubleScanScanner.nextItem ≠ 0 ∧
    ¬ doubleScanScanner.ColumnCount < 1 ∧
    (doubleScanScanner.Scan [.ppUint32 none] =
        .panicked "scan row failed: double scan per row" ∧
     doubleScanScanner.ScanWithDefaults [.ppUint32 none] =
        .panicked "scan row failed: double scan per row") :=
  ⟨rfl, by decide, by decide,
   c9_double_scan_panics doubleScanScanner [.ppUint32 none] rfl (by decide)
     trivial (by decide)⟩

/-- C6: for every error category classified as non-retriable, a Do call
whose operation always fails with it invokes the operation exactly once,
returns that error, and never reaches the backoff schedule, whatever the
idempotency declaration and however much context budget remains. -/
theorem c6_nonretriable_single_invocation (c : ErrCategory) (fuel : Nat) (idem : Bool)
    (hc : retriable c = false) (hf : 1 ≤ fuel) :
    Do fuel idem (fun _ => some c) = (.failed c, 1, 0) := by
  obtain ⟨k, rfl⟩ : ∃ k, fuel = k + 1 := ⟨fuel - 1, by omega⟩
  simp [Do, doLoop, hc]

/-- Witness for c6_nonretriable_single_invocation at the generic-error
status of the immediate-return test. -/
theorem c6_nonretriable_single_invocation_witness :
    retriable .opGenericError = false ∧ 1 ≤ 5 ∧
    Do 5 true (fun _ => some .opGenericError) = (.failed .opGenericError, 1, 0) :=
  ⟨rfl, by omega, c6_nonretriable_single_invocation .opGenericError 5 true rfl (by omega)⟩

/-- C7: Close is idempotent.  A second close of any lazyCoordination
returns nil without invoking the underlying client, and so does the
first close of a client that was never initialized. -/
theorem c7_close_idempotent (c : LazyCoordination) :
    ((c.close.1).close = (c.close.1, none, false)) ∧
    (LazyCoordination.close { client := none } = ({ client := none }, none, false)) := by
  refine ⟨?_, rfl⟩
  cases hc : c.client <;> simp [LazyCoordination.close, hc]

/-- C8: the endpoint attached by WithEndpoint is returned by
ContextEndpoint with ok=true, and on a context with no endpoint
attachment ContextEndpoint returns (nil, false). -/
theorem c8_context_endpoint_roundtrip (ctx ctx2 : Ctx) (e : Endpoint)
    (h : ctx2.hasEndpointKey = false) :
    ContextEndpoint (WithEndpoint ctx e) = (some e, true) ∧
    ContextEndpoint ctx2 = (none, false) := by
  constructor
  · simp [ContextEndpoint, WithEndpoint, Ctx.value]
  · have hv : ctx2.value .endpointKey = none := by
      induction ctx2 with
      | background => rfl
      | withValue p k v ih =>
          simp [Ctx.hasEndpointKey] at h
          simp [Ctx.value, h.1, ih h.2]
    simp [ContextEndpoint, hv]

/-- Witness for c8_context_endpoint_roundtrip on the background context
and a context carrying only an unrelated value. -/
theorem c8_context_endpoint_roundtrip_witness :
    (Ctx.withValue .background (.otherKey 0) (.otherVal 1)).hasEndpointKey = false ∧
    (ContextEndpoint (WithEndpoint .background { address := "node-1:2135" }) =
        (some { address := "node-1:2135" }, true) ∧
     ContextEndpoint (Ctx.withValue .background (.otherKey 0) (.otherVal 1)) =
        (none, false)) :=
  ⟨rfl, c8_context_endpoint_roundtrip .background
     (Ctx.withValue .background (.otherKey 0) (.otherVal 1))
     { address := "node-1:2135" } rfl⟩

/- Helper for C10: the token loop skips any prefix of failing providers
and stops at the first success, consulting exactly the providers up to
and including it. -/
theorem multiTokenLoop_first_success (pre : List (String × Option CredError))
    (t : String) (rest : List (String × Option CredError))
    (tok : String) (err : Option CredError) (n : Nat)
    (h : ∀ x ∈ pre, x.2 ≠ none) :
    multiTokenLoop (pre ++ (t, none) :: rest) tok err n = ((t, none), n + pre.length + 1) := by
  induction pre generalizing tok err n with
  | nil => simp [multiTokenLoop]
  | cons hd tl ih =>
      obtain ⟨t0, e0⟩ := hd
      have he : e0 ≠ none := h (t0, e0) (by simp)
      cases e0 with
      | none => exact absurd rfl he
      | some e1 =>
          have := ih t0 (some e1) (n + 1) (fun x hx => h x (by simp [hx]))
          simpa [multiTokenLoop, Nat.add_assoc, Nat.add_comm, Nat.add_left_comm] using this

/- Helper for C10: when every provider fails, the loop consults all of
them and keeps the last token and error. -/
theorem multiTokenLoop_all_fail (l : List (String × Option CredError))
    (tl : String) (el : CredError) (tok : String) (err : Option CredError) (n : Nat)
    (h : ∀ x ∈ l, x.2 ≠ none) :
    multiTokenLoop (l ++ [(tl, some el)]) tok err n = ((tl, some el), n + l.length + 1) := by
  induction l generalizing tok err n with
  | nil => simp [multiTokenLoop]
  | cons hd tl2 ih =>
      obtain ⟨t0, e0⟩ := hd
      have he : e0 ≠ none := h (t0, e0) (by simp)
      cases e0 with
      | none => exact absurd rfl he
      | some e1 =>
          have := ih t0 (some e1) (n + 1) (fun x hx => h x (by simp [hx]))
          simpa [multiTokenLoop, Nat.add_assoc, Nat.add_comm, Nat.add_left_comm] using this

/-- C10: multiCredentials.Token returns the token of the first
succeeding provider, consulting exactly the providers up to it; when
every provider fails it consults all of them and returns the last
provider's error; and with zero providers it returns
ErrCredentialsNoCredentials. -/
theorem c10_multicredentials_token
    (pre rest cs : List (String × Option CredError)) (t tl : String) (el : CredError)
    (h1 : ∀ x ∈ pre, x.2 ≠ none) (h2 : ∀ x ∈ cs, x.2 ≠ none) :
    multiCredentialsToken (pre ++ (t, none) :: rest) = ((t, none), pre.length + 1) ∧
    multiCredentialsToken (cs ++ [(tl, some el)]) = ((tl, some el), cs.length + 1) ∧
    multiCredentialsToken [] = (("", some .noCredentials), 0) := by
  refine ⟨?_, ?_, rfl⟩
  · simpa [multiCredentialsToken] using
      multiTokenLoop_first_success pre t rest "" none 0 h1
  · simpa [multiCredentialsToken] using
      multiTokenLoop_all_fail cs tl el "" none 0 h2

/-- Witness for c10_multicredentials_token at concrete provider lists:
one failing provider before the success, one failing provider before the
final failure. -/
theorem c10_multicredentials_token_witness :
    (∀ x ∈ [("a", some (CredError.providerError 0))], x.2 ≠ none) ∧
    (∀ x ∈ [("b", some (CredError.providerError 1))], x.2 ≠ none) ∧
    (multiCredentialsToken
        ([("a", some (CredError.providerError 0))] ++ ("tok", none) :: [("c", none)]) =
        (("tok", none), 2) ∧
     multiCredentialsToken
        ([("b", some (CredError.providerError 1))] ++ [("z", some (CredError.providerError 2))]) =
        (("z", some (CredError.providerError 2)), 2) ∧
     multiCredentialsToken [] = (("", some .noCredentials), 0)) :=
  ⟨by decide, by decide,
   c10_multicredentials_token
     [("a", some (CredError.providerError 0))] [("c", none)]
     [("b", some (CredError.providerError 1))] "tok" "z" (CredError.providerError 2)
     (by decide) (by decide)⟩
